import Mathlib

/-!
Verification of the session-forwarding core in `src/forwarder.rs`
(edgehog-device-runtime).

The Rust code is shallowly embedded:

* `SessionStatus`, `SessionState`, `SessionInfo` mirror the structs of the
  source.
* The external `Publisher` capability is modelled as an oracle: a
  `List Bool` of success results, one per publish/unset call issued, with
  success as the default once the oracle is exhausted.  Every call issued
  is recorded in a trace, whether it succeeded or not (the Rust code issues
  the call and then inspects the result).
* The external `ConnectionsManager` capability is modelled by a Bool for
  the result of `connect` and a `List Bool` of recoverable-disconnection
  events: each element is one `Err(Disconnected)` return of
  `handle_connections`, carrying the result of the subsequent `reconnect`;
  when the list is exhausted `handle_connections` returns `Ok`, i.e. the
  session completes gracefully.  Every terminating run of the Rust loop
  corresponds to exactly one such finite list.
* The `tokio` task registry `HashMap<SessionInfo, JoinHandle<()>>` is an
  association list with distinct keys; a `JoinHandle` is abstracted to an
  identifier plus its `is_finished` flag.
-/

/-- The three-state session status of `enum SessionStatus`. -/
inductive SessionStatus where
  | connecting
  | connected
  | disconnected
deriving DecidableEq, Repr

/-- `impl Display for SessionStatus`. -/
def SessionStatus.display : SessionStatus → String
  | .connecting => "Connecting"
  | .connected => "Connected"
  | .disconnected => "Disconnected"

/-- `struct SessionState { token, status }`. -/
structure SessionState where
  token : String
  status : SessionStatus
deriving DecidableEq, Repr

/-- `SessionState::connecting`. -/
def SessionState.connecting (token : String) : SessionState :=
  { token := token, status := .connecting }

/-- `SessionState::connected`. -/
def SessionState.connected (token : String) : SessionState :=
  { token := token, status := .connected }

/-- `SessionState::disconnected`. -/
def SessionState.disconnected (token : String) : SessionState :=
  { token := token, status := .disconnected }

/-- The fragment of `astarte_device_sdk::types::AstarteType` the forwarder
uses: a string value or the unset marker. -/
inductive AstarteType where
  | str : String → AstarteType
  | unset
deriving DecidableEq, Repr

/-- The fixed session-state channel
`FORWARDER_SESSION_STATE_INTERFACE`. -/
def forwarderSessionStateInterface : String :=
  "io.edgehog.devicemanager.ForwarderSessionState"

/-- `impl From<SessionState> for AstarteType`: Connecting/Connected become
the display string, Disconnected becomes the unset marker. -/
def astarteTypeOfSessionState (s : SessionState) : AstarteType :=
  match s.status with
  | .connecting => .str s.status.display
  | .connected => .str s.status.display
  | .disconnected => .unset

/-- One call to `Publisher::send(interface, path, data)`. -/
structure PublishCall where
  interface : String
  path : String
  data : AstarteType
deriving DecidableEq, Repr

/-- The call issued by `SessionState::send`: interface is the fixed
channel, path is `format!("/{}/status", self.token)`, data is
`self.into()`. -/
def SessionState.sendCall (s : SessionState) : PublishCall :=
  { interface := forwarderSessionStateInterface
  , path := "/" ++ s.token ++ "/status"
  , data := astarteTypeOfSessionState s }

/-- The `astarte_device_sdk::Error` values a publish call can return,
abstracted to a single error (the forwarder never inspects it). -/
inductive AstarteError where
  | err
deriving DecidableEq, Repr

/-- `enum ForwarderError` (the `Type` variant is unreachable in the
embedded code paths and is omitted). -/
inductive ForwarderError where
  | astarte : AstarteError → ForwarderError
  | connectionsManager : ForwarderError
deriving DecidableEq, Repr

/-- `SessionState::send` run against the publisher oracle: the head of
`pubs` decides success of this call (success when exhausted), the call's
session state is recorded in the returned trace whether or not the call
succeeded. -/
def sendOracle (s : SessionState) (pubs : List Bool) :
    Except AstarteError Unit × List Bool × List SessionState :=
  if pubs.headD true then (Except.ok (), pubs.tail, [s])
  else (Except.error AstarteError.err, pubs.tail, [s])

/-- A `tokio::task::JoinHandle<()>`, abstracted to an identifier and the
value of `is_finished` at the time the registry inspects it. -/
structure TaskHandle where
  id : Nat
  finished : Bool
deriving DecidableEq, Repr

/-- `SessionInfo` from `edgehog_forwarder::astarte` (host, port,
session_token, secure); equality over all four fields. -/
structure SessionInfo where
  host : String
  port : Nat
  session_token : String
  secure : Bool
deriving DecidableEq, Repr

/-- Outcome of the two external conversions at the top of
`handle_sessions`: `SessionInfo::from_event` may fail, then
`Url::try_from(&sinfo)` may fail, else both succeed. -/
inductive EventOutcome where
  | parseError
  | urlError : SessionInfo → EventOutcome
  | accepted : SessionInfo → String → EventOutcome
deriving DecidableEq, Repr

/-- `Forwarder::get_running`, first half: `tasks.retain(|_, jh|
!jh.is_finished())` — remove all finished tasks. -/
def Forwarder.get_running (tasks : List (SessionInfo × TaskHandle)) :
    List (SessionInfo × TaskHandle) :=
  tasks.filter (fun p => !p.2.finished)

/-- `Forwarder::handle_sessions` acting on the registry: on a parse or URL
error, log and return; otherwise prune finished tasks (`get_running`) and
`or_insert_with` the entry for the parsed `SessionInfo`, spawning
`newTask` only when the entry is vacant. -/
def Forwarder.handle_sessions (tasks : List (SessionInfo × TaskHandle))
    (ev : EventOutcome) (newTask : TaskHandle) :
    List (SessionInfo × TaskHandle) :=
  match ev with
  | .parseError => tasks
  | .urlError _ => tasks
  | .accepted sinfo _url =>
    let pruned := Forwarder.get_running tasks
    if pruned.any (fun p => decide (p.1 = sinfo)) then pruned
    else pruned ++ [(sinfo, newTask)]

/-- The `while let Err(Disconnected(err)) = con_manager.handle_connections()`
loop of `Forwarder::connect`.  `events` holds one entry per recoverable
disconnection, carrying the result of the `reconnect` that follows it; an
empty list means `handle_connections` returns `Ok` and the loop exits.
Per iteration the code publishes Connecting (propagating a publish error),
reconnects (propagating a `ConnectionsManager` error), then publishes
Connected (propagating a publish error). -/
def connectLoop (token : String) : List Bool → List Bool →
    Except ForwarderError Unit × List Bool × List SessionState
  | [], pubs => (.ok (), pubs, [])
  | reconnectOk :: rest, pubs =>
    let s1 := sendOracle (SessionState.connecting token) pubs
    match s1.1 with
    | .error e => (.error (.astarte e), s1.2.1, s1.2.2)
    | .ok _ =>
      if reconnectOk then
        let s2 := sendOracle (SessionState.connected token) s1.2.1
        match s2.1 with
        | .error e => (.error (.astarte e), s2.2.1, s1.2.2 ++ s2.2.2)
        | .ok _ =>
          let s3 := connectLoop token rest s2.2.1
          (s3.1, s3.2.1, s1.2.2 ++ s2.2.2 ++ s3.2.2)
      else (.error .connectionsManager, s1.2.1, s1.2.2)

/-- `Forwarder::connect`: `ConnectionsManager::connect` (result given by
`connectOk`; failure propagates as a `ConnectionsManager` error), then
publish Connected (propagating a publish error), then the monitor loop. -/
def Forwarder.connect (token : String) (connectOk : Bool)
    (events : List Bool) (pubs : List Bool) :
    Except ForwarderError Unit × List Bool × List SessionState :=
  if connectOk then
    let s1 := sendOracle (SessionState.connected token) pubs
    match s1.1 with
    | .error e => (.error (.astarte e), s1.2.1, s1.2.2)
    | .ok _ =>
      let s2 := connectLoop token events s1.2.1
      (s2.1, s2.2.1, s1.2.2 ++ s2.2.2)
  else (.error .connectionsManager, pubs, [])

/-- `Forwarder::handle_session`: publish Connecting (propagating a publish
error with `?`), run `Forwarder::connect` discarding its error after
logging it (`if let Err(err) = ... { error!(...) }`), then publish
Disconnected (propagating a publish error with `?`) and return `Ok(())`. -/
def Forwarder.handle_session (token : String) (connectOk : Bool)
    (events : List Bool) (pubs : List Bool) :
    Except ForwarderError Unit × List Bool × List SessionState :=
  let s1 := sendOracle (SessionState.connecting token) pubs
  match s1.1 with
  | .error e => (.error (.astarte e), s1.2.1, s1.2.2)
  | .ok _ =>
    let s2 := Forwarder.connect token connectOk events s1.2.1
    let s3 := sendOracle (SessionState.disconnected token) s2.2.1
    match s3.1 with
    | .error e => (.error (.astarte e), s3.2.1, s1.2.2 ++ s2.2.2 ++ s3.2.2)
    | .ok _ => (.ok (), s3.2.1, s1.2.2 ++ s2.2.2 ++ s3.2.2)

/-- A `StoredProp` as returned by `Publisher::interface_props` (only the
fields `Forwarder::init` reads). -/
structure StoredProp where
  interface : String
  path : String
  value : AstarteType
deriving DecidableEq, Repr

/-- The `for prop in ... { publisher.unset(INTERFACE, &prop.path).await? }`
loop of `Forwarder::init`: unset each property in order against the unset
oracle, stopping at the first failure.  Returns the result together with
the `(interface, path)` unset calls issued. -/
def unsetAll : List StoredProp → List Bool →
    Except AstarteError Unit × List (String × String)
  | [], _ => (.ok (), [])
  | p :: rest, unsets =>
    if unsets.headD true then
      let s := unsetAll rest unsets.tail
      (s.1, (forwarderSessionStateInterface, p.path) :: s.2)
    else (.error .err, [(forwarderSessionStateInterface, p.path)])

/-- `Forwarder::init`: enumerate the persisted properties of the fixed
session-state channel via `Publisher::interface_props` (`propsOf`, an
oracle over the interface name; failure propagates), unset each of them
(failure propagates), and only then construct the Forwarder with an empty
task registry.  Returns the construction result and the unset calls
issued. -/
def Forwarder.init (propsOf : String → Except AstarteError (List StoredProp))
    (unsets : List Bool) :
    Except ForwarderError (List (SessionInfo × TaskHandle)) ×
      List (String × String) :=
  match propsOf forwarderSessionStateInterface with
  | .error e => (.error (.astarte e), [])
  | .ok ps =>
    let s := unsetAll ps unsets
    match s.1 with
    | .error e => (.error (.astarte e), s.2)
    | .ok _ => (.ok [], s.2)

/-- `oracleAllOk n unsets` holds when the first `n` answers of the unset
oracle are all successes (an exhausted oracle answers success). -/
def oracleAllOk : Nat → List Bool → Bool
  | 0, _ => true
  | _ + 1, [] => true
  | n + 1, b :: rest => b && oracleAllOk n rest

/-- `altSeq e l` holds when `l` is a prefix of the infinite alternation
that starts with `e`: for `e = connecting`, a prefix of Connecting,
Connected, Connecting, Connected, ... -/
def altSeq : SessionStatus → List SessionStatus → Bool
  | _, [] => true
  | .connecting, .connecting :: rest => altSeq .connected rest
  | .connected, .connected :: rest => altSeq .connecting rest
  | _, _ => false

/-- Number of Disconnected entries in a status sequence. -/
def countDisc : List SessionStatus → Nat
  | [] => 0
  | .disconnected :: rest => countDisc rest + 1
  | _ :: rest => countDisc rest

/-- States of the automaton for the spec's claimed ordering pattern. -/
inductive OrdState where
  | start
  | wantConnected
  | wantNext
deriving DecidableEq, Repr

/-- Modelled from the spec: the ordering pattern the spec claims for a
session's published states — a prefix of Connecting, Connected,
(Connecting, Connected)*, Disconnected.  Stated as the acceptance (from
`OrdState.start`) of the prefix-closed automaton of that language, to be
compared with the sequences the embedded `Forwarder::handle_session`
actually issues. -/
def specOrderingOk : OrdState → List SessionStatus → Bool
  | _, [] => true
  | .start, .connecting :: rest => specOrderingOk .wantConnected rest
  | .wantConnected, .connected :: rest => specOrderingOk .wantNext rest
  | .wantNext, .connecting :: rest => specOrderingOk .wantConnected rest
  | .wantNext, .disconnected :: rest => rest.isEmpty
  | _, _ => false

lemma key_unique {α β : Type} {l : List (α × β)} {a : α} {b c : β}
    (hnd : (l.map Prod.fst).Nodup) (h1 : (a, b) ∈ l) (h2 : (a, c) ∈ l) :
    b = c := by
  induction l with
  | nil => cases h1
  | cons p rest ih =>
    simp only [List.map_cons, List.nodup_cons] at hnd
    rcases List.mem_cons.mp h1 with h1 | h1 <;>
      rcases List.mem_cons.mp h2 with h2 | h2
    · rw [← h1] at h2; exact (Prod.mk.injEq _ _ _ _ ▸ congrArg id h2).2.symm ▸ rfl
    · exfalso
      exact hnd.1 (by simpa [← h1] using List.mem_map_of_mem Prod.fst h2)
    · exfalso
      exact hnd.1 (by simpa [← h2] using List.mem_map_of_mem Prod.fst h1)
    · exact ih hnd.2 h1 h2

/-- C1: if the registry holds a not-yet-finished task for key `sinfo` when
an accepted request for `sinfo` is handled, the result is exactly the
pruned registry (no task is inserted, so no second task is spawned), the
existing entry for `sinfo` is still present, and the registry keys remain
distinct, so it never holds more than one task per key. -/
theorem handle_sessions_exclusive
    (tasks : List (SessionInfo × TaskHandle)) (sinfo : SessionInfo)
    (h : TaskHandle) (url : String) (newTask : TaskHandle)
    (hmem : (sinfo, h) ∈ tasks) (hfin : h.finished = false)
    (hnd : (tasks.map Prod.fst).Nodup) :
    Forwarder.handle_sessions tasks (.accepted sinfo url) newTask =
      Forwarder.get_running tasks ∧
    (sinfo, h) ∈ Forwarder.handle_sessions tasks (.accepted sinfo url) newTask ∧
    ((Forwarder.handle_sessions tasks (.accepted sinfo url) newTask).map
      Prod.fst).Nodup := by
  have hmem2 : (sinfo, h) ∈ Forwarder.get_running tasks := by
    unfold Forwarder.get_running
    exact List.mem_filter.mpr ⟨hmem, by simp [hfin]⟩
  have hany : (Forwarder.get_running tasks).any
      (fun p => decide (p.1 = sinfo)) = true :=
    List.any_eq_true.mpr ⟨(sinfo, h), hmem2, by simp⟩
  have heq : Forwarder.handle_sessions tasks (.accepted sinfo url) newTask =
      Forwarder.get_running tasks := by
    unfold Forwarder.handle_sessions
    simp only [hany, if_true]
  refine ⟨heq, heq ▸ hmem2, heq ▸ ?_⟩
  exact hnd.sublist ((List.filter_sublist tasks).map Prod.fst)

/-- C1 witness: a registry holding one unfinished task for the key; the
request for the same key leaves it as the sole entry. -/
theorem handle_sessions_exclusive_witness :
    Forwarder.handle_sessions [(⟨"h", 1, "t", false⟩, ⟨0, false⟩)]
        (.accepted ⟨"h", 1, "t", false⟩ "u") ⟨1, false⟩ =
      Forwarder.get_running [(⟨"h", 1, "t", false⟩, ⟨0, false⟩)] ∧
    ((⟨"h", 1, "t", false⟩ : SessionInfo), (⟨0, false⟩ : TaskHandle)) ∈
      Forwarder.handle_sessions [(⟨"h", 1, "t", false⟩, ⟨0, false⟩)]
        (.accepted ⟨"h", 1, "t", false⟩ "u") ⟨1, false⟩ ∧
    ((Forwarder.handle_sessions [(⟨"h", 1, "t", false⟩, ⟨0, false⟩)]
        (.accepted ⟨"h", 1, "t", false⟩ "u") ⟨1, false⟩).map
      Prod.fst).Nodup :=
  handle_sessions_exclusive _ _ _ _ _ (by decide) rfl (by decide)

/-- C6: the registry prunes finished entries before evaluating the key, so
once the task for key `sinfo` has finished, an accepted request for
`sinfo` spawns a new task: the result is the pruned registry with the new
entry `(sinfo, newTask)` appended. -/
theorem handle_sessions_reuse
    (tasks : List (SessionInfo × TaskHandle)) (sinfo : SessionInfo)
    (h : TaskHandle) (url : String) (newTask : TaskHandle)
    (hmem : (sinfo, h) ∈ tasks) (hfin : h.finished = true)
    (hnd : (tasks.map Prod.fst).Nodup) :
    Forwarder.handle_sessions tasks (.accepted sinfo url) newTask =
      Forwarder.get_running tasks ++ [(sinfo, newTask)] ∧
    (sinfo, newTask) ∈
      Forwarder.handle_sessions tasks (.accepted sinfo url) newTask := by
  have hany : (Forwarder.get_running tasks).any
      (fun p => decide (p.1 = sinfo)) = false := by
    rw [List.any_eq_false]
    rintro ⟨a, b⟩ hp
    have hpt := List.mem_of_mem_filter hp
    have hlive : b.finished = false := by
      have := (List.mem_filter.mp hp).2
      simpa using this
    simp only [decide_eq_true_eq]
    intro hk
    subst hk
    have : b = h := key_unique hnd hpt hmem
    rw [this, hfin] at hlive
    cases hlive
  have heq : Forwarder.handle_sessions tasks (.accepted sinfo url) newTask =
      Forwarder.get_running tasks ++ [(sinfo, newTask)] := by
    unfold Forwarder.handle_sessions
    simp only [hany, Bool.false_eq_true, if_false]
  exact ⟨heq, heq ▸ by simp⟩

/-- C6 witness: the sole entry for the key is finished; the request
reclaims it and registers the new task. -/
theorem handle_sessions_reuse_witness :
    Forwarder.handle_sessions [(⟨"h", 1, "t", false⟩, ⟨0, true⟩)]
        (.accepted ⟨"h", 1, "t", false⟩ "u") ⟨1, false⟩ =
      Forwarder.get_running [(⟨"h", 1, "t", false⟩, ⟨0, true⟩)] ++
        [(⟨"h", 1, "t", false⟩, ⟨1, false⟩)] ∧
    ((⟨"h", 1, "t", false⟩ : SessionInfo), (⟨1, false⟩ : TaskHandle)) ∈
      Forwarder.handle_sessions [(⟨"h", 1, "t", false⟩, ⟨0, true⟩)]
        (.accepted ⟨"h", 1, "t", false⟩ "u") ⟨1, false⟩ :=
  handle_sessions_reuse [(⟨"h", 1, "t", false⟩, ⟨0, true⟩)]
    ⟨"h", 1, "t", false⟩ ⟨0, true⟩ "u" ⟨1, false⟩ (by decide) rfl (by decide)

/-- C8: an inbound event that fails `SessionInfo::from_event` or
`Url::try_from` is logged and dropped before `get_running` is reached: no
task is spawned and the registry is returned completely unchanged. -/
theorem handle_sessions_rejects_malformed
    (tasks : List (SessionInfo × TaskHandle)) (sinfo : SessionInfo)
    (newTask : TaskHandle) :
    Forwarder.handle_sessions tasks .parseError newTask = tasks ∧
    Forwarder.handle_sessions tasks (.urlError sinfo) newTask = tasks :=
  ⟨rfl, rfl⟩

/-- C4: the publish call for a session state addresses path
`/<token>/status` under the fixed session-state channel, and encodes
Connecting and Connected as the matching string values while Disconnected
is the unset marker, never a string sentinel. -/
theorem sendCall_spec (token : String) :
    (SessionState.connecting token).sendCall =
      { interface := "io.edgehog.devicemanager.ForwarderSessionState"
      , path := "/" ++ token ++ "/status"
      , data := .str "Connecting" } ∧
    (SessionState.connected token).sendCall =
      { interface := "io.edgehog.devicemanager.ForwarderSessionState"
      , path := "/" ++ token ++ "/status"
      , data := .str "Connected" } ∧
    (SessionState.disconnected token).sendCall =
      { interface := "io.edgehog.devicemanager.ForwarderSessionState"
      , path := "/" ++ token ++ "/status"
      , data := .unset } ∧
    ∀ v : String,
      astarteTypeOfSessionState (SessionState.disconnected token) ≠ .str v :=
  ⟨rfl, rfl, rfl, fun _ h => AstarteType.noConfusion h⟩

lemma sendOracle_true {s : SessionState} {pubs : List Bool}
    (hb : pubs.headD true = true) :
    sendOracle s pubs = (Except.ok (), pubs.tail, [s]) := by
  simp only [sendOracle, hb]
  simp

lemma sendOracle_false {s : SessionState} {pubs : List Bool}
    (hb : pubs.headD true = false) :
    sendOracle s pubs = (Except.error AstarteError.err, pubs.tail, [s]) := by
  simp only [sendOracle, hb]
  simp

lemma connectLoop_alt (token : String) :
    ∀ (events pubs : List Bool),
      altSeq SessionStatus.connecting
        (((connectLoop token events pubs).2.2).map SessionState.status) =
        true := by
  intro events
  induction events with
  | nil => intro pubs; simp [connectLoop, altSeq]
  | cons rOk rest ih =>
    intro pubs
    cases hb : pubs.headD true with
    | false =>
      simp [connectLoop, sendOracle_false hb, SessionState.connecting, altSeq]
    | true =>
      cases rOk with
      | false =>
        simp [connectLoop, sendOracle_true hb, SessionState.connecting, altSeq]
      | true =>
        cases hb2 : pubs.tail.headD true with
        | false =>
          simp [connectLoop, sendOracle_true hb, sendOracle_false hb2,
            SessionState.connecting, SessionState.connected, altSeq]
        | true =>
          simp [connectLoop, sendOracle_true hb, sendOracle_true hb2,
            SessionState.connecting, SessionState.connected, altSeq, ih]

lemma connect_alt (token : String) (connectOk : Bool)
    (events pubs : List Bool) :
    altSeq SessionStatus.connected
      (((Forwarder.connect token connectOk events pubs).2.2).map
        SessionState.status) = true := by
  cases connectOk with
  | false => simp [Forwarder.connect, altSeq]
  | true =>
    cases hb : pubs.headD true with
    | false =>
      simp [Forwarder.connect, sendOracle_false hb, SessionState.connected,
        altSeq]
    | true =>
      simp [Forwarder.connect, sendOracle_true hb, SessionState.connected,
        altSeq, connectLoop_alt]

lemma altSeq_no_disc :
    ∀ (l : List SessionStatus) (e : SessionStatus),
      altSeq e l = true → countDisc l = 0 := by
  intro l
  induction l with
  | nil => intro e _; rfl
  | cons s rest ih =>
    intro e h
    cases e <;> cases s <;> simp [altSeq] at h <;>
      simp [countDisc, ih _ h]

lemma countDisc_append (a b : List SessionStatus) :
    countDisc (a ++ b) = countDisc a + countDisc b := by
  induction a with
  | nil => simp [countDisc]
  | cons s rest ih =>
    cases s <;> simp [countDisc, ih]
    omega

lemma handle_session_fail (token : String) (connectOk : Bool)
    (events pubs : List Bool) (hb : pubs.headD true = false) :
    Forwarder.handle_session token connectOk events pubs =
      (Except.error (ForwarderError.astarte AstarteError.err), pubs.tail,
        [SessionState.connecting token]) := by
  simp [Forwarder.handle_session, sendOracle_false hb]

lemma handle_session_trace (token : String) (connectOk : Bool)
    (events pubs : List Bool) (hb : pubs.headD true = true) :
    (Forwarder.handle_session token connectOk events pubs).2.2 =
      SessionState.connecting token ::
        ((Forwarder.connect token connectOk events pubs.tail).2.2 ++
          [SessionState.disconnected token]) := by
  cases hb2 :
      ((Forwarder.connect token connectOk events pubs.tail).2.1).headD true with
  | false =>
    simp [Forwarder.handle_session, sendOracle_true hb, sendOracle_false hb2]
  | true =>
    simp [Forwarder.handle_session, sendOracle_true hb, sendOracle_true hb2]

lemma handle_session_result (token : String) (connectOk : Bool)
    (events pubs : List Bool) (hb : pubs.headD true = true) :
    (Forwarder.handle_session token connectOk events pubs).1 =
      if ((Forwarder.connect token connectOk events pubs.tail).2.1).headD true
      then Except.ok ()
      else Except.error (ForwarderError.astarte AstarteError.err) := by
  cases hb2 :
      ((Forwarder.connect token connectOk events pubs.tail).2.1).headD true with
  | false =>
    simp [Forwarder.handle_session, sendOracle_true hb, sendOracle_false hb2]
  | true =>
    simp [Forwarder.handle_session, sendOracle_true hb, sendOracle_true hb2]

lemma handle_session_countDisc (token : String) (connectOk : Bool)
    (events pubs : List Bool) (hb : pubs.headD true = true) :
    countDisc
      (((Forwarder.handle_session token connectOk events pubs).2.2).map
        SessionState.status) = 1 := by
  rw [handle_session_trace token connectOk events pubs hb]
  have hcd :
      countDisc
        (((Forwarder.connect token connectOk events pubs.tail).2.2).map
          SessionState.status) = 0 :=
    altSeq_no_disc _ _ (connect_alt token connectOk events pubs.tail)
  simp [countDisc, countDisc_append, hcd, SessionState.connecting,
    SessionState.disconnected]

lemma handle_session_lastDisc (token : String) (connectOk : Bool)
    (events pubs : List Bool) (hb : pubs.headD true = true) :
    ((((Forwarder.handle_session token connectOk events pubs).2.2).map
      SessionState.status)).getLast? = some SessionStatus.disconnected := by
  rw [handle_session_trace token connectOk events pubs hb]
  simp only [List.map_cons, List.map_append, List.map_nil,
    ← List.cons_append, List.getLast?_concat]
  simp [SessionState.disconnected]

lemma handle_session_never_conn (token : String) (connectOk : Bool)
    (events pubs : List Bool) :
    (Forwarder.handle_session token connectOk events pubs).1 ≠
      Except.error ForwarderError.connectionsManager := by
  cases hb : pubs.headD true with
  | false =>
    rw [handle_session_fail token connectOk events pubs hb]
    simp
  | true =>
    rw [handle_session_result token connectOk events pubs hb]
    cases ((Forwarder.connect token connectOk events pubs.tail).2.1).headD true <;>
      simp

/-- C2: for every session task whose initial Connecting publish succeeds
(oracle head `true`), the Disconnected finalize publish is attempted
exactly once, and it is the last publish issued — whatever the results of
the connect step (`connectOk`), the monitor/reconnect loop (`events`) and
the remaining publish oracle (`rest`); a connect or reconnect error never
prevents it. -/
theorem handle_session_finalize_once (token : String) (connectOk : Bool)
    (events rest : List Bool) :
    countDisc
      (((Forwarder.handle_session token connectOk events
          (true :: rest)).2.2).map SessionState.status) = 1 ∧
    ((((Forwarder.handle_session token connectOk events
        (true :: rest)).2.2).map SessionState.status)).getLast? =
      some SessionStatus.disconnected :=
  ⟨handle_session_countDisc token connectOk events (true :: rest) rfl,
   handle_session_lastDisc token connectOk events (true :: rest) rfl⟩

/-- C3 counterexample: when `ConnectionsManager::connect` fails and both
publishes succeed, the session ends normally (`Ok`) with published
sequence Connecting, Disconnected — which the spec's claimed pattern
(prefix of Connecting, Connected, (Connecting, Connected)*, Disconnected)
rejects, since it requires a Connected before the Disconnected. -/
theorem handle_session_ordering_cex :
    ((Forwarder.handle_session "abcd" false [] [true, true]).2.2).map
        SessionState.status =
      [SessionStatus.connecting, SessionStatus.disconnected] ∧
    (Forwarder.handle_session "abcd" false [] [true, true]).1 =
      Except.ok () ∧
    specOrderingOk OrdState.start
      [SessionStatus.connecting, SessionStatus.disconnected] = false :=
  ⟨rfl, rfl, rfl⟩

/-- C3 amended: for every session task, the sequence of states published
for its token, with the final Disconnected publish (when present)
removed, is a prefix of the alternation Connecting, Connected,
Connecting, Connected, ...; the Disconnected may directly follow a
Connecting when a connect or reconnect failure cuts the session short.
When the session ends normally (the task's result is `Ok`), the
Disconnected publish is the last publish issued for that token. -/
theorem handle_session_state_ordering (token : String) (connectOk : Bool)
    (events pubs : List Bool) :
    (∃ t, altSeq SessionStatus.connecting t = true ∧
      ((((Forwarder.handle_session token connectOk events pubs).2.2).map
          SessionState.status) = t ∨
       (((Forwarder.handle_session token connectOk events pubs).2.2).map
          SessionState.status) = t ++ [SessionStatus.disconnected])) ∧
    ((Forwarder.handle_session token connectOk events pubs).1 =
        Except.ok () →
      ((((Forwarder.handle_session token connectOk events pubs).2.2).map
        SessionState.status)).getLast? = some SessionStatus.disconnected) := by
  cases hb : pubs.headD true with
  | false =>
    constructor
    · refine ⟨[SessionStatus.connecting], rfl, Or.inl ?_⟩
      rw [handle_session_fail token connectOk events pubs hb]
      simp [SessionState.connecting]
    · intro h
      rw [handle_session_fail token connectOk events pubs hb] at h
      cases h
  | true =>
    constructor
    · refine ⟨SessionStatus.connecting ::
        (((Forwarder.connect token connectOk events pubs.tail).2.2).map
          SessionState.status), ?_, Or.inr ?_⟩
      · have := connect_alt token connectOk events pubs.tail
        simpa [altSeq] using this
      · rw [handle_session_trace token connectOk events pubs hb]
        simp [SessionState.connecting, SessionState.disconnected]
    · intro _
      exact handle_session_lastDisc token connectOk events pubs hb

/-- C7 counterexample: with oracle `[true, false, true]` the Connected
publish inside `Forwarder::connect` fails (the connect step returns the
publish error), yet `handle_session` only logs that error: the task's
result is `Ok`, so a publish failure is not always propagated out of the
task. -/
theorem handle_session_publish_swallowed_cex :
    (Forwarder.connect "t" true [] [false, true]).1 =
      Except.error (ForwarderError.astarte AstarteError.err) ∧
    (Forwarder.handle_session "t" true [] [true, false, true]).1 =
      Except.ok () ∧
    ((Forwarder.handle_session "t" true [] [true, false, true]).2.2).map
        SessionState.status =
      [SessionStatus.connecting, SessionStatus.connected,
        SessionStatus.disconnected] :=
  ⟨rfl, rfl, rfl⟩

/-- C7 amended: a failure of the initial Connecting publish or of the
finalize Disconnected publish is propagated out of the task as an error in
its result; a publish failure inside the connect/monitor phase is wrapped
in the connect error, which is logged and swallowed, so the task's result
is decided solely by the finalize publish once the initial publish
succeeded; in that case the task terminates after the finalize publish has
been attempted exactly once. -/
theorem handle_session_publish_errors (token : String) (connectOk : Bool)
    (events rest : List Bool) :
    (Forwarder.handle_session token connectOk events (false :: rest)).1 =
      Except.error (ForwarderError.astarte AstarteError.err) ∧
    ((Forwarder.handle_session token connectOk events (true :: rest)).1 =
      if ((Forwarder.connect token connectOk events rest).2.1).headD true
      then Except.ok ()
      else Except.error (ForwarderError.astarte AstarteError.err)) ∧
    countDisc
      (((Forwarder.handle_session token connectOk events
          (true :: rest)).2.2).map SessionState.status) = 1 := by
  refine ⟨?_, ?_, handle_session_countDisc token connectOk events
    (true :: rest) rfl⟩
  · rw [handle_session_fail token connectOk events (false :: rest) rfl]
  · exact handle_session_result token connectOk events (true :: rest) rfl

/-- C9: when the connect phase ends in a `ConnectionsManager` error (a
connect or reconnect failure), `handle_session` logs it and still runs the
Disconnected finalize; if that publish succeeds the task's overall result
is `Ok`.  Moreover no run of `handle_session`, whatever the oracles,
returns a `ConnectionsManager` error: connection errors never appear in
the task's result. -/
theorem handle_session_conn_error_swallowed (token : String)
    (connectOk : Bool) (events rest : List Bool)
    (_hc : (Forwarder.connect token connectOk events rest).1 =
      Except.error ForwarderError.connectionsManager)
    (hf : ((Forwarder.connect token connectOk events rest).2.1).headD true =
      true) :
    (Forwarder.handle_session token connectOk events (true :: rest)).1 =
      Except.ok () ∧
    ∀ ps : List Bool,
      (Forwarder.handle_session token connectOk events ps).1 ≠
        Except.error ForwarderError.connectionsManager := by
  refine ⟨?_, fun ps => handle_session_never_conn token connectOk events ps⟩
  rw [handle_session_result token connectOk events (true :: rest) rfl]
  simp only [List.tail_cons, hf]
  simp

/-- C9 witness: `ConnectionsManager::connect` fails outright; the finalize
publish succeeds and the task result is `Ok`. -/
theorem handle_session_conn_error_swallowed_witness :
    (Forwarder.handle_session "t" false [] [true]).1 = Except.ok () ∧
    ∀ ps : List Bool,
      (Forwarder.handle_session "t" false [] ps).1 ≠
        Except.error ForwarderError.connectionsManager :=
  handle_session_conn_error_swallowed "t" false [] [] rfl rfl

/-- C10: if the initial Connecting publish fails, `handle_session` returns
that error at once: the oracle is consumed only for that single publish,
the trace holds only the Connecting attempt — the connect step issues no
call and the Disconnected finalize is never attempted. -/
theorem handle_session_connecting_fail_stops (token : String)
    (connectOk : Bool) (events rest : List Bool) :
    Forwarder.handle_session token connectOk events (false :: rest) =
      (Except.error (ForwarderError.astarte AstarteError.err), rest,
        [SessionState.connecting token]) :=
  handle_session_fail token connectOk events (false :: rest) rfl

lemma oracleAllOk_nil : ∀ n : Nat, oracleAllOk n [] = true := by
  intro n
  cases n <;> rfl

lemma unsetAll_spec :
    ∀ (ps : List StoredProp) (unsets : List Bool),
      ((unsetAll ps unsets).1 = Except.ok () ↔
        oracleAllOk ps.length unsets = true) ∧
      (oracleAllOk ps.length unsets = true →
        (unsetAll ps unsets).2 =
          ps.map (fun p => (forwarderSessionStateInterface, p.path))) := by
  intro ps
  induction ps with
  | nil => intro unsets; simp [unsetAll, oracleAllOk]
  | cons p rest ih =>
    intro unsets
    cases unsets with
    | nil =>
      have h := ih []
      constructor
      · simpa [unsetAll, oracleAllOk_nil] using h.1
      · intro _
        simp [unsetAll, h.2 (oracleAllOk_nil rest.length)]
    | cons b t =>
      cases b with
      | false => simp [unsetAll, oracleAllOk]
      | true =>
        have h := ih t
        constructor
        · simpa [unsetAll, oracleAllOk] using h.1
        · intro hok
          have hok2 : oracleAllOk rest.length t = true := by
            simpa [oracleAllOk] using hok
          simp [unsetAll, h.2 hok2]

/-- C5: `Forwarder::init` — if enumerating the session-state channel
fails, construction fails with that error and no unset is issued; if
enumeration returns `ps`, construction succeeds (with an empty task
registry) exactly when every one of the unsets succeeds, and in that case
one unset per persisted entry is issued, at that entry's path under the
fixed session-state channel; any single unset failure makes construction
fail. -/
theorem init_spec (propsOf : String → Except AstarteError (List StoredProp))
    (unsets : List Bool) :
    (∀ e, propsOf forwarderSessionStateInterface = Except.error e →
      Forwarder.init propsOf unsets =
        (Except.error (ForwarderError.astarte e), [])) ∧
    (∀ ps, propsOf forwarderSessionStateInterface = Except.ok ps →
      (((Forwarder.init propsOf unsets).1 = Except.ok []) ↔
        oracleAllOk ps.length unsets = true) ∧
      (oracleAllOk ps.length unsets = true →
        (Forwarder.init propsOf unsets).2 =
          ps.map (fun p => (forwarderSessionStateInterface, p.path)))) := by
  constructor
  · intro e he
    simp [Forwarder.init, he]
  · intro ps hps
    have hu := unsetAll_spec ps unsets
    cases hres : (unsetAll ps unsets).1 with
    | error e =>
      have hno : ¬ oracleAllOk ps.length unsets = true := by
        intro hok
        have := hu.1.mpr hok
        rw [hres] at this
        cases this
      constructor
      · constructor
        · intro h
          simp [Forwarder.init, hps, hres] at h
        · intro hok
          exact absurd hok hno
      · intro hok
        exact absurd hok hno
    | ok u =>
      have hok : oracleAllOk ps.length unsets = true := by
        apply hu.1.mp
        rw [hres]
      constructor
      · simp [Forwarder.init, hps, hres, hok]
      · intro _
        simp [Forwarder.init, hps, hres]
        exact hu.2 hok

/-- C5 witness: one persisted entry and a succeeding unset oracle:
construction succeeds with the empty registry and exactly that entry's
path is unset under the fixed channel. -/
theorem init_spec_witness :
    ((Forwarder.init
        (fun _ => Except.ok
          [({ interface := forwarderSessionStateInterface
            , path := "/a/status"
            , value := AstarteType.str "Connected" } : StoredProp)])
        [true]).1 = Except.ok [] ↔
      oracleAllOk 1 [true] = true) ∧
    (oracleAllOk 1 [true] = true →
      (Forwarder.init
        (fun _ => Except.ok
          [({ interface := forwarderSessionStateInterface
            , path := "/a/status"
            , value := AstarteType.str "Connected" } : StoredProp)])
        [true]).2 =
        [({ interface := forwarderSessionStateInterface
          , path := "/a/status"
          , value := AstarteType.str "Connected" } : StoredProp)].map
          (fun p => (forwarderSessionStateInterface, p.path))) :=
  (init_spec
    (fun _ => Except.ok
      [({ interface := forwarderSessionStateInterface
        , path := "/a/status"
        , value := AstarteType.str "Connected" } : StoredProp)])
    [true]).2
    [({ interface := forwarderSessionStateInterface
      , path := "/a/status"
      , value := AstarteType.str "Connected" } : StoredProp)] rfl
